import Mathlib

/-!
Shallow embedding of `src/index.js` of sol-wallet-adapter: the `Wallet`
class — a message-transport session manager bridging a web page to a
wallet counterpart (an injected provider object or a popup window).

Modelling conventions:
* JavaScript values that matter only through truthiness are modelled by
  `JSValue` with an explicit `truthy` predicate.
* Side effects (event emissions, promise settlements, DOM listener
  registration, `postMessage` calls, popup operations) are collected as an
  output `List Event`; state is passed explicitly as `WalletState`.
* `PublicKey` wraps its base58 wire string; `equals` compares the strings
  (the web3.js constructor throws on malformed input — the claims below
  only involve well-formed identities, so the decoder is total here).
* Message `id`s are modelled as `Option Nat`: only `Nat` request ids are
  ever inserted into the correlation table, so a non-numeric wire id can
  never match an entry (JS `Map` lookup uses SameValueZero equality).
* The `e.data` string-parse preamble of `_handleMessage` is not modelled:
  a payload that remains a string fails every branch of the handler, so
  structured `MessageData` covers all observable behaviours the claims
  quantify over.
-/

/-- Truthiness-bearing JavaScript value. -/
inductive JSValue where
  | undef
  | jnull
  | jbool (b : Bool)
  | jnum (n : Int)
  | jstr (s : String)
  | jobj
  deriving DecidableEq, Repr

/-- JavaScript truthiness. -/
def truthy : JSValue → Bool
  | .undef => false
  | .jnull => false
  | .jbool b => b
  | .jnum n => n != 0
  | .jstr s => s != ""
  | .jobj => true

/-- `PublicKey` from `@solana/web3.js`, identified by its base58 string. -/
structure PublicKey where
  base58 : String
  deriving DecidableEq, Repr

/-- `PublicKey.equals`. -/
def PublicKey.equals (a b : PublicKey) : Bool :=
  a.base58 == b.base58

/-- `new PublicKey(s)` (total here; claims use well-formed identities). -/
def mkPublicKey (s : String) : PublicKey :=
  ⟨s⟩

/-- `data.params` of a `connected` notification. -/
structure ConnParams where
  publicKey : String := ""
  autoApprove : JSValue := .undef
  deriving DecidableEq, Repr

/-- The parsed `e.data` of an inbound window message. -/
structure MessageData where
  isRN : JSValue := .undef
  method : JSValue := .undef
  params : ConnParams := {}
  id : Option Nat := none
  result : JSValue := .undef
  error : JSValue := .undef
  deriving DecidableEq, Repr

/-- `e.source`: the originating browsing context of a window message. -/
inductive SourceRef where
  | window
  | popupWin (w : Nat)
  | other (n : Nat)
  deriving DecidableEq, Repr

/-- The inbound message event `e` (`data`, `origin`, `source`). -/
structure MsgEvent where
  data : MessageData
  origin : String
  source : SourceRef
  deriving DecidableEq, Repr

/-- The transport fixed at construction: `_injectedProvider` is set, or
`_providerUrl` is set and its origin recorded. -/
inductive Provider where
  | injectedAgent
  | urlProvider (origin : String)
  deriving DecidableEq, Repr

/-- The mutable fields of a `Wallet` instance. -/
structure WalletState where
  provider : Provider
  network : String
  publicKey : Option PublicKey := none
  autoApprove : Bool := false
  popup : Option Nat := none
  handlerAdded : Bool := false
  nextRequestId : Nat := 1
  responsePromises : List Nat := []
  deriving DecidableEq, Repr

/-- Receiver chosen by the UIWebView platform switch in `_handleConnect`. -/
inductive Receiver where
  | window
  | document
  deriving DecidableEq, Repr

/-- Observable side effects, in program order. -/
inductive Event where
  | addMessageListener (r : Receiver)
  | addUnloadListener (r : Receiver)
  | removeMessageListenerWindow
  | removeUnloadListenerWindow
  | emitConnect (pk : PublicKey)
  | emitDisconnect
  | resolveP (id : Nat) (v : JSValue)
  | rejectError (id : Nat) (e : JSValue)
  | rejectDisconnected (id : Nat)
  | postInjected (id : Nat) (method : String) (network : String)
  | postToPopup (w : Nat) (id : Nat) (method : String) (targetOrigin : String)
  | popupPostFailed (id : Nat)
  | focusPopup (w : Nat)
  | openPopup (w : Nat)
  | closePopup (w : Nat)
  deriving DecidableEq, Repr

/-- `e.source === this._popup`. -/
def sourceIsPopup (popup : Option Nat) (s : SourceRef) : Bool :=
  match popup, s with
  | some w, .popupWin w2 => w == w2
  | _, _ => false

/-- The admission condition of `_handleMessage`:
`(typeof data === 'object' && data.isRN) ||
 (this._injectedProvider && e.source === window) ||
 (e.origin === this._providerUrl.origin && e.source === this._popup)`.
For an injected session `_providerUrl` is undefined and reaching the third
disjunct would throw a TypeError in the source (leaving state unchanged);
it is modelled as `false`. -/
def admitted (st : WalletState) (e : MsgEvent) : Bool :=
  truthy e.data.isRN ||
  (st.provider == .injectedAgent && e.source == .window) ||
  (match st.provider with
   | .urlProvider o => e.origin == o && sourceIsPopup st.popup e.source
   | .injectedAgent => false)

/-- `_handleDisconnect`: remove the listener pair (from `window`) if
installed, clear the identity and emit `disconnect` if connected, then
reject and delete every pending request. -/
def handleDisconnect (st : WalletState) : WalletState × List Event :=
  let st1 := if st.handlerAdded then { st with handlerAdded := false } else st
  let ev1 : List Event :=
    if st.handlerAdded then
      [Event.removeMessageListenerWindow, Event.removeUnloadListenerWindow]
    else []
  let st2 := if st1.publicKey.isSome then { st1 with publicKey := none } else st1
  let ev2 : List Event := if st1.publicKey.isSome then [Event.emitDisconnect] else []
  let ev3 := st2.responsePromises.map Event.rejectDisconnected
  ({ st2 with responsePromises := [] }, ev1 ++ ev2 ++ ev3)

/-- The `data.method === 'connected'` branch of `_handleMessage`. -/
def connectedBranch (st : WalletState) (d : MessageData) : WalletState × List Event :=
  let newPublicKey := mkPublicKey d.params.publicKey
  let changed :=
    match st.publicKey with
    | none => true
    | some pk => !(pk.equals newPublicKey)
  if changed then
    let pre :=
      match st.publicKey with
      | some pk => if pk.equals newPublicKey then (st, ([] : List Event)) else handleDisconnect st
      | none => (st, ([] : List Event))
    ({ pre.1 with publicKey := some newPublicKey,
                  autoApprove := truthy d.params.autoApprove },
     pre.2 ++ [Event.emitConnect newPublicKey])
  else (st, [])

/-- The `data.result || data.error` branch of `_handleMessage`. Note the
source never deletes the table entry here. -/
def responseBranch (st : WalletState) (d : MessageData) : WalletState × List Event :=
  match d.id with
  | some k =>
    if st.responsePromises.contains k then
      if truthy d.result then (st, [Event.resolveP k d.result])
      else (st, [Event.rejectError k d.error])
    else (st, [])
  | none => (st, [])

/-- `_handleMessage`. -/
def handleMessage (st : WalletState) (e : MsgEvent) : WalletState × List Event :=
  if admitted st e then
    if e.data.method == .jstr "connected" then connectedBranch st e.data
    else if e.data.method == .jstr "disconnected" then handleDisconnect st
    else if truthy e.data.result || truthy e.data.error then responseBranch st e.data
    else (st, [])
  else (st, [])

/-- Result of `_sendRequest`: a synchronous throw (before any mutation), or
a dispatched request with the allocated id and the transport events. -/
inductive SendResult where
  | thrown (msg : String) (st : WalletState)
  | sent (st : WalletState) (requestId : Nat) (events : List Event)
  deriving DecidableEq, Repr

/-- The transport events of one dispatched request: injected providers
get `network` merged into params; remote windows get the message posted
to the popup at the precise provider origin, followed by a focus call
unless `autoApprove` is set. A missing popup makes `postMessage` throw
inside the promise executor (after the entry is registered); modelled by
the `popupPostFailed` event with the focus call skipped. -/
def sendEvents (st : WalletState) (requestId : Nat) (method : String) : List Event :=
  match st.provider with
  | .injectedAgent => [Event.postInjected requestId method st.network]
  | .urlProvider o =>
      match st.popup with
      | some w =>
          [Event.postToPopup w requestId method o] ++
          (if !st.autoApprove then [Event.focusPopup w] else [])
      | none => [Event.popupPostFailed requestId]

/-- `_sendRequest`: guard, allocate `requestId`, register the pending
entry, then post through the resolved transport. `this.connected` is
`_publicKey !== null`. -/
def sendRequest (st : WalletState) (method : String) : SendResult :=
  if method != "connect" && st.publicKey == none then
    .thrown "Wallet not connected" st
  else
    .sent { st with nextRequestId := st.nextRequestId + 1,
                    responsePromises := st.responsePromises ++ [st.nextRequestId] }
      st.nextRequestId (sendEvents st st.nextRequestId method)

/-- The receiver picked by the UIWebView user-agent test. -/
def receiverFor (isUIWebView : Bool) : Receiver :=
  if isUIWebView then .window else .document

/-- `_handleConnect`: lazily install the listener pair, then either send a
`connect` request (injected) or open the popup at the resolved URL. -/
def handleConnect (st : WalletState) (isUIWebView : Bool) (newPopup : Nat) :
    WalletState × List Event :=
  let st1 := if st.handlerAdded then st else { st with handlerAdded := true }
  let ev1 : List Event :=
    if st.handlerAdded then []
    else [Event.addMessageListener (receiverFor isUIWebView),
          Event.addUnloadListener (receiverFor isUIWebView)]
  match st.provider with
  | .injectedAgent =>
      match sendRequest st1 "connect" with
      | .sent st2 _ evs => (st2, ev1 ++ evs)
      | .thrown _ st2 => (st2, ev1)
  | .urlProvider _ =>
      ({ st1 with popup := some newPopup }, ev1 ++ [Event.openPopup newPopup])

/-- Public `connect()`: close any previous popup (the field is not
cleared), then `_handleConnect`. -/
def connectOp (st : WalletState) (isUIWebView : Bool) (newPopup : Nat) :
    WalletState × List Event :=
  let closeEv : List Event :=
    match st.popup with
    | some w => [Event.closePopup w]
    | none => []
  let r := handleConnect st isUIWebView newPopup
  (r.1, closeEv ++ r.2)

/-- Outcome oracle for the awaited reply to the injected `disconnect`
request: the promise resolves, rejects, or never settles. -/
inductive ReplyOutcome where
  | resolved
  | rejectedReply
  | neverArrives
  deriving DecidableEq, Repr

/-- Outcome of the async `disconnect()` function: it threw (the returned
promise rejects and the remaining statements are skipped), it is
suspended forever on the `await`, or it ran to completion. -/
inductive DisconnectResult where
  | threw (st : WalletState) (events : List Event)
  | hung (st : WalletState) (events : List Event)
  | completed (st : WalletState) (events : List Event)
  deriving DecidableEq, Repr

/-- State reached by `disconnect()` (in whatever outcome). -/
def DisconnectResult.state : DisconnectResult → WalletState
  | .threw st _ => st
  | .hung st _ => st
  | .completed st _ => st

/-- Public `disconnect()`: for an injected session it first runs
`await this._sendRequest('disconnect', {})` with no try/catch — a
synchronous throw or a rejected/never-settled reply prevents the popup
close and `_handleDisconnect` from running. -/
def disconnectOp (st : WalletState) (reply : ReplyOutcome) : DisconnectResult :=
  match st.provider with
  | .injectedAgent =>
      match sendRequest st "disconnect" with
      | .thrown _ st1 => .threw st1 []
      | .sent st1 _ evs =>
          match reply with
          | .neverArrives => .hung st1 evs
          | .rejectedReply => .threw st1 evs
          | .resolved =>
              let closeEv : List Event :=
                match st1.popup with
                | some w => [Event.closePopup w]
                | none => []
              let r := handleDisconnect st1
              .completed r.1 (evs ++ closeEv ++ r.2)
  | .urlProvider _ =>
      let closeEv : List Event :=
        match st.popup with
        | some w => [Event.closePopup w]
        | none => []
      let r := handleDisconnect st
      .completed r.1 (closeEv ++ r.2)

/-- A parsed URL record (`new URL(provider)`); `hash` is stored without the
leading `#`. -/
structure URLRec where
  origin : String
  pathname : String
  search : String
  hash : String
  deriving DecidableEq, Repr

/-- Upper-case hex digit. -/
def hexUpper (n : Nat) : Char :=
  if n < 10 then Char.ofNat (48 + n) else Char.ofNat (55 + n)

/-- One byte under `application/x-www-form-urlencoded` (URLSearchParams):
alphanumerics and `*-._` unchanged, space to `+`, else percent-escaped. -/
def formEncodeByte (b : Nat) : String :=
  if (65 ≤ b && b ≤ 90) || (97 ≤ b && b ≤ 122) || (48 ≤ b && b ≤ 57) ||
     b == 42 || b == 45 || b == 46 || b == 95 then
    String.singleton (Char.ofNat b)
  else if b == 32 then "+"
  else String.singleton '%' ++ String.singleton (hexUpper (b / 16)) ++
       String.singleton (hexUpper (b % 16))

/-- URLSearchParams component encoding. Characters are encoded through
their code points; for code points below 128 this coincides with the
UTF-8 byte encoding the source uses, and all inputs involved here
(origins, URLs, network tags) are ASCII. -/
def formEncode (s : String) : String :=
  String.join (s.data.map (fun c => formEncodeByte c.toNat))

/-- `new URLSearchParams({ origin, network }).toString()`. -/
def searchParamsToString (origin network : String) : String :=
  "origin=" ++ formEncode origin ++ "&network=" ++ formEncode network

/-- The constructor's URL branch: `this._providerUrl.hash = ...` — the
serialized parameters are assigned to the fragment, not the query. -/
def resolveProviderUrl (providerUrl : URLRec) (appOrigin network : String) : URLRec :=
  { providerUrl with hash := searchParamsToString appOrigin network }

/-- `URL#toString` for the model. -/
def urlToString (u : URLRec) : String :=
  u.origin ++ u.pathname ++ u.search ++ (if u.hash == "" then "" else "#" ++ u.hash)

/-- Constructor, URL-string provider case. -/
def mkWalletUrl (providerUrl : URLRec) (appOrigin network : String) : WalletState :=
  { provider := .urlProvider (resolveProviderUrl providerUrl appOrigin network).origin,
    network := network }

/-- Constructor, injected provider case. -/
def mkWalletInjected (network : String) : WalletState :=
  { provider := .injectedAgent, network := network }

/-- Sequential processing of a list of inbound messages, accumulating the
emitted events. -/
def processAll (st : WalletState) : List MsgEvent → WalletState × List Event
  | [] => (st, [])
  | e :: es =>
      let r1 := handleMessage st e
      let r2 := processAll r1.1 es
      (r2.1, r1.2 ++ r2.2)

/-- Correlation-table invariant: the counter starts no lower than 1 and
every live key was allocated strictly before the current counter. -/
def idInv (st : WalletState) : Prop :=
  1 ≤ st.nextRequestId ∧ ∀ k ∈ st.responsePromises, k < st.nextRequestId

/-- One observable operation of a session: a request dispatch (or its
synchronous throw), an inbound message, `connect()`, or `disconnect()`. -/
inductive Step : WalletState → WalletState → Prop where
  | send (st : WalletState) (m : String) (st' : WalletState) (id : Nat)
      (evs : List Event) (h : sendRequest st m = .sent st' id evs) : Step st st'
  | sendThrown (st : WalletState) (m : String) (msg : String)
      (h : sendRequest st m = .thrown msg st) : Step st st
  | msg (st : WalletState) (e : MsgEvent) : Step st (handleMessage st e).1
  | conn (st : WalletState) (ui : Bool) (p : Nat) : Step st (connectOp st ui p).1
  | disc (st : WalletState) (r : ReplyOutcome) : Step st (disconnectOp st r).state

/-- A remote-window session connected with identity `AAA`: listener
installed, popup 3 open, one pending request with id 1. -/
def cUrlState : WalletState :=
  { provider := .urlProvider "https://wallet.example.com",
    network := "mainnet-beta",
    publicKey := some ⟨"AAA"⟩,
    popup := some 3,
    handlerAdded := true,
    nextRequestId := 2,
    responsePromises := [1] }

/-- A wrong-origin `disconnected` notification tagged `isRN: true`. -/
def cRNMsg : MsgEvent :=
  { data := { isRN := .jbool true, method := .jstr "disconnected" },
    origin := "https://evil.example",
    source := .other 7 }

/-- A well-formed response for request 1 from the genuine popup. -/
def cRespMsg : MsgEvent :=
  { data := { id := some 1, result := .jstr "ok" },
    origin := "https://wallet.example.com",
    source := .popupWin 3 }

/-- A genuine `disconnected` notification from the popup. -/
def cDiscMsg : MsgEvent :=
  { data := { method := .jstr "disconnected" },
    origin := "https://wallet.example.com",
    source := .popupWin 3 }

/-- A genuine `connected` notification carrying identity `BBB`. -/
def cConnBMsg : MsgEvent :=
  { data := { method := .jstr "connected",
              params := { publicKey := "BBB", autoApprove := .jbool true } },
    origin := "https://wallet.example.com",
    source := .popupWin 3 }

/-- A genuine `connected` notification carrying identity `AAA`. -/
def cConnAMsg : MsgEvent :=
  { data := { method := .jstr "connected",
              params := { publicKey := "AAA", autoApprove := .jbool false } },
    origin := "https://wallet.example.com",
    source := .popupWin 3 }

/-- An injected session connected with identity `AAA`, listener
installed, next request id 5. -/
def cInjState : WalletState :=
  { provider := .injectedAgent,
    network := "mainnet-beta",
    publicKey := some ⟨"AAA"⟩,
    handlerAdded := true,
    nextRequestId := 5 }

/-- A concrete parsed provider URL. -/
def cProviderUrl : URLRec :=
  { origin := "https://wallet.example.com", pathname := "/", search := "", hash := "" }

/-! ### Structural lemmas about the operations -/

/-- `_handleDisconnect` always leaves a state with the listener flag
cleared, the identity erased and the correlation table empty; all other
fields are untouched. -/
theorem handleDisconnect_fst (st : WalletState) :
    (handleDisconnect st).1 =
      { st with handlerAdded := false, publicKey := none, responsePromises := [] } := by
  cases st
  unfold handleDisconnect
  dsimp only
  split <;> split <;> simp_all

/-- Events of `_handleDisconnect` from a connected state. -/
theorem handleDisconnect_snd (st : WalletState) (A : PublicKey)
    (hpk : st.publicKey = some A) :
    (handleDisconnect st).2 =
      (if st.handlerAdded then
        [Event.removeMessageListenerWindow, Event.removeUnloadListenerWindow]
       else []) ++
      Event.emitDisconnect :: st.responsePromises.map Event.rejectDisconnected := by
  unfold handleDisconnect
  by_cases h : st.handlerAdded <;> simp [h, hpk]

/-- A `connect`-method request always passes the precondition guard. -/
theorem sendRequest_connect_eq (st : WalletState) :
    sendRequest st "connect" =
      .sent { st with nextRequestId := st.nextRequestId + 1,
                      responsePromises := st.responsePromises ++ [st.nextRequestId] }
        st.nextRequestId (sendEvents st st.nextRequestId "connect") := by
  unfold sendRequest
  simp

/-- A dispatched request allocates the current counter value, bumps the
counter by one, and appends exactly that key to the table. -/
theorem sendRequest_sent_inv (st : WalletState) (m : String) (st' : WalletState)
    (id : Nat) (evs : List Event) (h : sendRequest st m = .sent st' id evs) :
    id = st.nextRequestId ∧
    st' = { st with nextRequestId := st.nextRequestId + 1,
                    responsePromises := st.responsePromises ++ [st.nextRequestId] } := by
  unfold sendRequest at h
  split at h
  · cases h
  · cases h
    exact ⟨rfl, rfl⟩

/-- The response branch never mutates state. -/
theorem responseBranch_fst (st : WalletState) (d : MessageData) :
    (responseBranch st d).1 = st := by
  unfold responseBranch
  split
  · split
    · split <;> rfl
    · rfl
  · rfl

/-- The connected branch never touches the request counter. -/
theorem connectedBranch_nextRequestId (st : WalletState) (d : MessageData) :
    (connectedBranch st d).1.nextRequestId = st.nextRequestId := by
  unfold connectedBranch
  dsimp only
  split
  · split <;> simp_all [handleDisconnect_fst]
  · rfl

/-- The connected branch either keeps the table or (via the implicit
disconnect) empties it. -/
theorem connectedBranch_table (st : WalletState) (d : MessageData) :
    (connectedBranch st d).1.responsePromises = st.responsePromises ∨
    (connectedBranch st d).1.responsePromises = [] := by
  unfold connectedBranch
  dsimp only
  split
  · split
    · split <;> simp_all [handleDisconnect_fst]
    · simp
  · simp

/-- `_handleMessage` never touches the request counter. -/
theorem handleMessage_nextRequestId (st : WalletState) (e : MsgEvent) :
    (handleMessage st e).1.nextRequestId = st.nextRequestId := by
  unfold handleMessage
  split
  · split
    · exact connectedBranch_nextRequestId st e.data
    · split
      · simp [handleDisconnect_fst]
      · split
        · simp [responseBranch_fst]
        · rfl
  · rfl

/-- `_handleMessage` either keeps the table or empties it; it never
inserts. -/
theorem handleMessage_table (st : WalletState) (e : MsgEvent) :
    (handleMessage st e).1.responsePromises = st.responsePromises ∨
    (handleMessage st e).1.responsePromises = [] := by
  unfold handleMessage
  split
  · split
    · exact connectedBranch_table st e.data
    · split
      · right
        simp [handleDisconnect_fst]
      · split
        · left
          simp [responseBranch_fst]
        · left
          rfl
  · left
    rfl

/-! ### Claim theorems -/

/-- C1 (amended): for a remote-window session, an inbound message whose
declared origin differs from the resolved counterpart origin AND whose
payload is not tagged as React-Native-embedded (`isRN` truthy) leaves the
state unchanged and settles no pending request. (The `isRN` tag bypasses
the origin check entirely — see the counterexample.) -/
theorem wrongOriginIgnoredUnlessRN (st : WalletState) (e : MsgEvent) (o : String)
    (hp : st.provider = .urlProvider o) (ho : e.origin ≠ o)
    (hrn : truthy e.data.isRN = false) :
    handleMessage st e = (st, []) := by
  have h1 : (e.origin == o) = false := by
    simpa [beq_eq_false_iff_ne] using ho
  have hadm : admitted st e = false := by
    unfold admitted
    simp [hp, hrn, h1]
  unfold handleMessage
  simp [hadm]

/-- C1 (counterexample to the claim as stated): a message whose declared
origin differs from the counterpart origin but carries `isRN: true` is
fully processed: here a forged `disconnected` notification from
`https://evil.example` tears down the connection and force-rejects the
pending request. -/
theorem wrongOriginRNBypass_cex :
    cRNMsg.origin ≠ "https://wallet.example.com" ∧
    cUrlState.provider = .urlProvider "https://wallet.example.com" ∧
    cUrlState.publicKey = some ⟨"AAA"⟩ ∧
    (handleMessage cUrlState cRNMsg).1.publicKey = none ∧
    Event.rejectDisconnected 1 ∈ (handleMessage cUrlState cRNMsg).2 := by
  decide

/-- C1 witness: a wrong-origin, non-`isRN` message is a strict no-op. -/
theorem wrongOriginIgnoredUnlessRN_witness :
    handleMessage cUrlState
      { data := { method := .jstr "disconnected" },
        origin := "https://evil.example", source := .other 7 } =
      (cUrlState, []) :=
  wrongOriginIgnoredUnlessRN cUrlState
    { data := { method := .jstr "disconnected" },
      origin := "https://evil.example", source := .other 7 }
    "https://wallet.example.com" rfl (by decide) rfl

/-- C4 (amended): the listener pair is installed by any `connect()` call
that finds it uninstalled, with the installation events preceding every
transport event of that call; while installed it is never installed
again; but it is removed by every disconnect transition
(`_handleDisconnect`) — not only on full teardown. -/
theorem listenerLifecycle (st : WalletState) (ui : Bool) (p : Nat) :
    (st.handlerAdded = false →
      (handleConnect st ui p).1.handlerAdded = true ∧
      ∃ rest, (handleConnect st ui p).2 =
        Event.addMessageListener (receiverFor ui) ::
        Event.addUnloadListener (receiverFor ui) :: rest) ∧
    (st.handlerAdded = true →
      ∀ r, Event.addMessageListener r ∉ (handleConnect st ui p).2) ∧
    (st.handlerAdded = true →
      (handleDisconnect st).1.handlerAdded = false ∧
      Event.removeMessageListenerWindow ∈ (handleDisconnect st).2) := by
  refine ⟨?_, ?_, ?_⟩
  · intro h
    unfold handleConnect
    cases hp : st.provider with
    | injectedAgent =>
        simp [h, sendRequest_connect_eq]
    | urlProvider o =>
        simp [h]
  · intro h r
    unfold handleConnect
    cases hp : st.provider with
    | injectedAgent =>
        simp [h, sendRequest_connect_eq, sendEvents, hp]
    | urlProvider o =>
        simp [h]
  · intro h
    refine ⟨by simp [handleDisconnect_fst], ?_⟩
    unfold handleDisconnect
    simp [h]

/-- C4 (counterexample to the claim as stated): a mere
Connected-to-Disconnected transition — an admitted `disconnected`
notification — removes the listener. -/
theorem listenerRemovedOnDisconnect_cex :
    cUrlState.handlerAdded = true ∧
    cUrlState.publicKey = some ⟨"AAA"⟩ ∧
    (handleMessage cUrlState cDiscMsg).1.handlerAdded = false ∧
    Event.removeMessageListenerWindow ∈ (handleMessage cUrlState cDiscMsg).2 := by
  decide

/-- C4 witness: the removal half of the lifecycle at a concrete state. -/
theorem listenerLifecycle_witness :
    (handleDisconnect cUrlState).1.handlerAdded = false ∧
    Event.removeMessageListenerWindow ∈ (handleDisconnect cUrlState).2 :=
  (listenerLifecycle cUrlState true 9).2.2 rfl

/-- C5 (amended): the constructor appends the app origin and network,
URLSearchParams-encoded, to the provider URL's fragment (`hash`) — the
query string is left unchanged. -/
theorem providerUrlParamsInHash (u : URLRec) (appOrigin network : String) :
    resolveProviderUrl u appOrigin network =
      { u with hash := "origin=" ++ formEncode appOrigin ++ "&network=" ++
                       formEncode network } ∧
    (resolveProviderUrl u appOrigin network).search = u.search :=
  ⟨rfl, rfl⟩

/-- C5 (counterexample to the claim as stated): at a concrete provider
URL the resolved URL has an empty query string; the parameters live in
the fragment. -/
theorem providerUrlQuery_cex :
    (resolveProviderUrl cProviderUrl "https://app.example.com" "mainnet-beta").search
      = "" ∧
    (resolveProviderUrl cProviderUrl "https://app.example.com" "mainnet-beta").hash
      = "origin=https%3A%2F%2Fapp.example.com&network=mainnet-beta" ∧
    urlToString (resolveProviderUrl cProviderUrl "https://app.example.com" "mainnet-beta")
      = "https://wallet.example.com/#origin=https%3A%2F%2Fapp.example.com&network=mainnet-beta" := by
  decide

/-- C6: a request whose method is not `connect`, issued while the session
is not connected, throws `Wallet not connected` synchronously: the state
is returned untouched — no id allocated, no table entry, no transport
event. -/
theorem notConnectedRejectsBeforeDispatch (st : WalletState) (m : String)
    (hm : m ≠ "connect") (hpk : st.publicKey = none) :
    sendRequest st m = .thrown "Wallet not connected" st := by
  have h1 : (m != "connect") = true := by
    simpa [bne_iff_ne] using hm
  unfold sendRequest
  simp [h1, hpk]

/-- C6 witness: `sign` before any connect on a fresh injected session. -/
theorem notConnectedRejectsBeforeDispatch_witness :
    sendRequest (mkWalletInjected "mainnet-beta") "sign" =
      .thrown "Wallet not connected" (mkWalletInjected "mainnet-beta") :=
  notConnectedRejectsBeforeDispatch (mkWalletInjected "mainnet-beta") "sign"
    (by decide) rfl

/-- C8: an admitted `connected` notification carrying the identity the
session already holds causes no state change and no event, and this
holds over arbitrary sequences of such notifications. -/
theorem sameIdentityIdempotent (st : WalletState) (A : PublicKey)
    (hpk : st.publicKey = some A) (es : List MsgEvent)
    (hall : ∀ e ∈ es, admitted st e = true ∧ e.data.method = .jstr "connected" ∧
            mkPublicKey e.data.params.publicKey = A) :
    processAll st es = (st, []) := by
  induction es with
  | nil => rfl
  | cons e es ih =>
      obtain ⟨hadm, hm, hA⟩ := hall e (List.mem_cons_self e es)
      have hstep : handleMessage st e = (st, []) := by
        unfold handleMessage connectedBranch
        simp [hadm, hm, hpk, hA, PublicKey.equals]
      have ih2 := ih (fun e2 he2 => hall e2 (List.mem_cons_of_mem e he2))
      unfold processAll
      simp [hstep, ih2]

/-- C8 witness: two same-identity notifications in a row are a no-op. -/
theorem sameIdentityIdempotent_witness :
    processAll cUrlState [cConnAMsg, cConnAMsg] = (cUrlState, []) :=
  sameIdentityIdempotent cUrlState ⟨"AAA"⟩ rfl [cConnAMsg, cConnAMsg]
    (by decide)

/-- C10: settlement of an admitted response with a live id dispatches on
truthiness: a truthy `result` resolves (even if `error` is also truthy);
otherwise a truthy `error` rejects; if both are falsy nothing happens and
the request stays pending (the state, table included, is unchanged in
all three cases). -/
theorem responseTruthinessDispatch (st : WalletState) (e : MsgEvent) (k : Nat)
    (hadm : admitted st e = true)
    (hm1 : e.data.method ≠ .jstr "connected")
    (hm2 : e.data.method ≠ .jstr "disconnected")
    (hid : e.data.id = some k)
    (hlive : st.responsePromises.contains k = true) :
    (truthy e.data.result = true →
       handleMessage st e = (st, [Event.resolveP k e.data.result])) ∧
    (truthy e.data.result = false → truthy e.data.error = true →
       handleMessage st e = (st, [Event.rejectError k e.data.error])) ∧
    (truthy e.data.result = false → truthy e.data.error = false →
       handleMessage st e = (st, [])) := by
  have h1 : (e.data.method == JSValue.jstr "connected") = false := by
    simpa [beq_eq_false_iff_ne] using hm1
  have h2 : (e.data.method == JSValue.jstr "disconnected") = false := by
    simpa [beq_eq_false_iff_ne] using hm2
  have hmem : k ∈ st.responsePromises := by simpa using hlive
  refine ⟨?_, ?_, ?_⟩
  · intro hr
    unfold handleMessage responseBranch
    simp [hadm, h1, h2, hr, hid, hmem]
  · intro hr he
    unfold handleMessage responseBranch
    simp [hadm, h1, h2, hr, he, hid, hmem]
  · intro hr he
    unfold handleMessage
    simp [hadm, h1, h2, hr, he]

/-- C10 witness: a truthy string result resolves request 1. -/
theorem responseTruthinessDispatch_witness :
    handleMessage cUrlState cRespMsg = (cUrlState, [Event.resolveP 1 (.jstr "ok")]) :=
  (responseTruthinessDispatch cUrlState cRespMsg 1 (by decide) (by decide)
    (by decide) rfl (by decide)).1 (by decide)

/-- C7: an admitted `connected` notification carrying identity B while
connected with a different identity A runs the implicit re-authentication:
the state passes through the disconnected state produced by
`_handleDisconnect` (identity `none`) before adopting B, and the emitted
events contain `disconnect` strictly before the final `connect B`. -/
theorem reauthDisconnectThenConnect (st : WalletState) (e : MsgEvent) (A B : PublicKey)
    (hpk : st.publicKey = some A) (hadm : admitted st e = true)
    (hm : e.data.method = .jstr "connected")
    (hB : mkPublicKey e.data.params.publicKey = B)
    (hne : A ≠ B) :
    handleMessage st e =
      ({ (handleDisconnect st).1 with
          publicKey := some B,
          autoApprove := truthy e.data.params.autoApprove },
        (handleDisconnect st).2 ++ [Event.emitConnect B]) ∧
    (handleDisconnect st).1.publicKey = none ∧
    ∃ pre post, (handleDisconnect st).2 ++ [Event.emitConnect B] =
      pre ++ Event.emitDisconnect :: post ++ [Event.emitConnect B] := by
  have hba : A.base58 ≠ B.base58 := by
    intro hb
    apply hne
    cases A
    cases B
    simpa using hb
  have heq : A.equals B = false := by
    simp [PublicKey.equals, hba]
  refine ⟨?_, by simp [handleDisconnect_fst], ?_⟩
  · unfold handleMessage connectedBranch
    simp [hadm, hm, hpk, hB, heq]
  · refine ⟨(if st.handlerAdded then
        [Event.removeMessageListenerWindow, Event.removeUnloadListenerWindow]
       else []),
      st.responsePromises.map Event.rejectDisconnected, ?_⟩
    rw [handleDisconnect_snd st A hpk]

/-- C7 witness: re-authentication from AAA to BBB at a concrete state. -/
theorem reauthDisconnectThenConnect_witness :
    handleMessage cUrlState cConnBMsg =
      ({ (handleDisconnect cUrlState).1 with
          publicKey := some ⟨"BBB"⟩, autoApprove := true },
        (handleDisconnect cUrlState).2 ++ [Event.emitConnect ⟨"BBB"⟩]) :=
  (reauthDisconnectThenConnect cUrlState cConnBMsg ⟨"AAA"⟩ ⟨"BBB"⟩ rfl (by decide)
    rfl rfl (by decide)).1

/-- C2 (amended): settling an admitted response does NOT remove the entry
from the correlation table — the state (table included) is unchanged, so
a second response bearing the same id finds the entry live and invokes
the continuation again; entries are removed only by the disconnect
sweep, which empties the table. -/
theorem settlementKeepsEntryLive (st : WalletState) (e : MsgEvent) (k : Nat)
    (hadm : admitted st e = true)
    (hm1 : e.data.method ≠ .jstr "connected")
    (hm2 : e.data.method ≠ .jstr "disconnected")
    (hid : e.data.id = some k)
    (hlive : st.responsePromises.contains k = true)
    (hre : (truthy e.data.result || truthy e.data.error) = true) :
    (handleMessage st e).1 = st ∧
    (handleMessage st e).2 =
      (if truthy e.data.result then [Event.resolveP k e.data.result]
       else [Event.rejectError k e.data.error]) ∧
    handleMessage ((handleMessage st e).1) e = handleMessage st e ∧
    ((handleDisconnect st).1).responsePromises = [] := by
  have h1 : (e.data.method == JSValue.jstr "connected") = false := by
    simpa [beq_eq_false_iff_ne] using hm1
  have h2 : (e.data.method == JSValue.jstr "disconnected") = false := by
    simpa [beq_eq_false_iff_ne] using hm2
  have hfst : (handleMessage st e).1 = st := by
    unfold handleMessage
    simp [hadm, h1, h2, hre, responseBranch_fst]
  have hmem : k ∈ st.responsePromises := by simpa using hlive
  have hsnd : (handleMessage st e).2 =
      (if truthy e.data.result then [Event.resolveP k e.data.result]
       else [Event.rejectError k e.data.error]) := by
    unfold handleMessage responseBranch
    cases hr : truthy e.data.result with
    | true => simp [hadm, h1, h2, hid, hmem, hr]
    | false =>
        have he : truthy e.data.error = true := by simpa [hr] using hre
        simp [hadm, h1, h2, hid, hmem, hr, he]
  exact ⟨hfst, hsnd, by rw [hfst], by simp [handleDisconnect_fst]⟩

/-- C2 (counterexample to the claim as stated): a settled response leaves
its entry in the table, and a second response with the same id settles it
again — the removal the claim asserts does not happen. -/
theorem settlementRemoval_cex :
    (handleMessage cUrlState cRespMsg).2 = [Event.resolveP 1 (.jstr "ok")] ∧
    (handleMessage cUrlState cRespMsg).1.responsePromises = [1] ∧
    handleMessage ((handleMessage cUrlState cRespMsg).1) cRespMsg =
      ((handleMessage cUrlState cRespMsg).1, [Event.resolveP 1 (.jstr "ok")]) := by
  decide

/-- C2 witness: the settled state is exactly the pre-state. -/
theorem settlementKeepsEntryLive_witness :
    (handleMessage cUrlState cRespMsg).1 = cUrlState :=
  (settlementKeepsEntryLive cUrlState cRespMsg 1 (by decide) (by decide)
    (by decide) rfl (by decide) (by decide)).1

/-- A synchronous `_sendRequest` throw returns the untouched state and the
`Wallet not connected` message. -/
theorem sendRequest_thrown_inv (st : WalletState) (m msg : String) (st' : WalletState)
    (h : sendRequest st m = .thrown msg st') :
    st' = st ∧ msg = "Wallet not connected" := by
  unfold sendRequest at h
  split at h
  · cases h
    exact ⟨rfl, rfl⟩
  · cases h

/-- C3 (amended): on an injected session, `disconnect()` awaits the
`disconnect` request with no catch. If the session is not connected the
guard throws and no teardown runs; if the reply never arrives the
function stays suspended with the identity still set and the request
pending; if the reply rejects, the rejection propagates and teardown is
skipped; only a resolved reply reaches the Disconnected transition. -/
theorem disconnectAwaitsReply (st : WalletState)
    (hp : st.provider = .injectedAgent) :
    (st.publicKey = none → ∀ r, disconnectOp st r = .threw st []) ∧
    (∀ A, st.publicKey = some A →
      (disconnectOp st .neverArrives =
         .hung { st with nextRequestId := st.nextRequestId + 1,
                         responsePromises := st.responsePromises ++ [st.nextRequestId] }
           (sendEvents st st.nextRequestId "disconnect") ∧
       (disconnectOp st .neverArrives).state.publicKey = some A) ∧
      (disconnectOp st .rejectedReply =
         .threw { st with nextRequestId := st.nextRequestId + 1,
                          responsePromises := st.responsePromises ++ [st.nextRequestId] }
           (sendEvents st st.nextRequestId "disconnect") ∧
       (disconnectOp st .rejectedReply).state.publicKey = some A) ∧
      ((disconnectOp st .resolved).state.publicKey = none ∧
       (disconnectOp st .resolved).state.responsePromises = [])) := by
  have hd : ("disconnect" != "connect") = true := by decide
  constructor
  · intro hn r
    unfold disconnectOp sendRequest
    simp [hp, hn, hd]
  · intro A hA
    have hsr : sendRequest st "disconnect" =
        .sent { st with nextRequestId := st.nextRequestId + 1,
                        responsePromises := st.responsePromises ++ [st.nextRequestId] }
          st.nextRequestId (sendEvents st st.nextRequestId "disconnect") := by
      unfold sendRequest
      simp [hA, hd]
    refine ⟨⟨?_, ?_⟩, ⟨?_, ?_⟩, ⟨?_, ?_⟩⟩
    · unfold disconnectOp
      simp [hp, hsr]
    · unfold disconnectOp
      simp [hp, hsr, DisconnectResult.state, hA]
    · unfold disconnectOp
      simp [hp, hsr]
    · unfold disconnectOp
      simp [hp, hsr, DisconnectResult.state, hA]
    · unfold disconnectOp
      simp [hp, hsr, DisconnectResult.state, handleDisconnect_fst]
    · unfold disconnectOp
      simp [hp, hsr, DisconnectResult.state, handleDisconnect_fst]

/-- C3 (counterexample to the claim as stated): with a reply that never
arrives, `disconnect()` on a connected injected session stays suspended —
identity kept, the freshly allocated `disconnect` request pending, no
teardown. And on a not-connected injected session (with a pending
`connect` request 4) it throws without rejecting that request. -/
theorem disconnectBestEffort_cex :
    disconnectOp cInjState .neverArrives =
      .hung { cInjState with nextRequestId := 6, responsePromises := [5] }
        [Event.postInjected 5 "disconnect" "mainnet-beta"] ∧
    (disconnectOp cInjState .neverArrives).state.publicKey = some ⟨"AAA"⟩ ∧
    disconnectOp { cInjState with publicKey := none, responsePromises := [4] }
        .resolved =
      .threw { cInjState with publicKey := none, responsePromises := [4] } [] := by
  decide

/-- C3 witness: only the resolved-reply path reaches the Disconnected
transition. -/
theorem disconnectAwaitsReply_witness :
    (disconnectOp cInjState .resolved).state.publicKey = none ∧
    (disconnectOp cInjState .resolved).state.responsePromises = [] :=
  ((disconnectAwaitsReply cInjState rfl).2 ⟨"AAA"⟩ rfl).2.2

/-- `_handleConnect` either leaves the correlator untouched (remote
window) or dispatches exactly the `connect` request (injected). -/
theorem handleConnect_next_table (st : WalletState) (ui : Bool) (p : Nat) :
    ((handleConnect st ui p).1.nextRequestId = st.nextRequestId ∧
     (handleConnect st ui p).1.responsePromises = st.responsePromises) ∨
    ((handleConnect st ui p).1.nextRequestId = st.nextRequestId + 1 ∧
     (handleConnect st ui p).1.responsePromises =
       st.responsePromises ++ [st.nextRequestId]) := by
  unfold handleConnect
  cases hp : st.provider with
  | injectedAgent =>
      right
      by_cases h : st.handlerAdded <;> simp [h, sendRequest_connect_eq]
  | urlProvider o =>
      left
      by_cases h : st.handlerAdded <;> simp [h]

/-- `connect()` reaches the same state as `_handleConnect`. -/
theorem connectOp_fst (st : WalletState) (ui : Bool) (p : Nat) :
    (connectOp st ui p).1 = (handleConnect st ui p).1 := rfl

/-- Counter and table effect of every `disconnect()` outcome: either
nothing was dispatched (counter kept; table kept or swept), or the
`disconnect` request was dispatched (counter bumped; its key appended,
or the whole table swept by the completed teardown). -/
theorem disconnectOp_next_table (st : WalletState) (r : ReplyOutcome) :
    ((disconnectOp st r).state.nextRequestId = st.nextRequestId ∧
     ((disconnectOp st r).state.responsePromises = st.responsePromises ∨
      (disconnectOp st r).state.responsePromises = [])) ∨
    ((disconnectOp st r).state.nextRequestId = st.nextRequestId + 1 ∧
     ((disconnectOp st r).state.responsePromises =
        st.responsePromises ++ [st.nextRequestId] ∨
      (disconnectOp st r).state.responsePromises = [])) := by
  unfold disconnectOp
  cases hp : st.provider with
  | urlProvider o =>
      left
      simp [DisconnectResult.state, handleDisconnect_fst]
  | injectedAgent =>
      cases hs : sendRequest st "disconnect" with
      | thrown msg st1 =>
          obtain ⟨h1, _⟩ := sendRequest_thrown_inv st "disconnect" msg st1 hs
          subst h1
          left
          simp [DisconnectResult.state]
      | sent st1 id evs =>
          obtain ⟨hid, hst⟩ := sendRequest_sent_inv st "disconnect" st1 id evs hs
          right
          cases r <;> simp [DisconnectResult.state, hst, handleDisconnect_fst]

/-- C9: request-id discipline. The constructor starts the counter at 1
with an empty table; every dispatched request is allocated the current
counter value, bumps the counter by exactly one, and appends a key that
(under the table invariant) is not already live; and across every
operation of a session the counter never decreases, the table invariant
is preserved, and the only key ever added to the table is the freshly
allocated counter value — a removed id, being below the counter forever
after, is never reinserted. -/
theorem requestIdDiscipline :
    (∀ net, (mkWalletInjected net).nextRequestId = 1 ∧
            (mkWalletInjected net).responsePromises = []) ∧
    (∀ u ao net, (mkWalletUrl u ao net).nextRequestId = 1 ∧
                 (mkWalletUrl u ao net).responsePromises = []) ∧
    (∀ st m st' id evs, sendRequest st m = .sent st' id evs →
        id = st.nextRequestId ∧ st'.nextRequestId = st.nextRequestId + 1 ∧
        st'.responsePromises = st.responsePromises ++ [id] ∧
        (idInv st → id ∉ st.responsePromises)) ∧
    (∀ st st', Step st st' →
        st.nextRequestId ≤ st'.nextRequestId ∧
        (idInv st → idInv st') ∧
        (∀ k ∈ st'.responsePromises,
          k ∈ st.responsePromises ∨ k = st.nextRequestId)) := by
  refine ⟨fun net => ⟨rfl, rfl⟩, fun u ao net => ⟨rfl, rfl⟩, ?_, ?_⟩
  · intro st m st' id evs h
    obtain ⟨hid, hst⟩ := sendRequest_sent_inv st m st' id evs h
    subst hid
    refine ⟨rfl, by rw [hst], by rw [hst], ?_⟩
    intro hinv hmem
    exact absurd (hinv.2 _ hmem) (lt_irrefl _)
  · intro st st' hstep
    cases hstep with
    | send m st' id evs h =>
        obtain ⟨hid, hst⟩ := sendRequest_sent_inv st m st' id evs h
        subst hst
        refine ⟨Nat.le_succ _, ?_, ?_⟩
        · intro hinv
          refine ⟨le_trans hinv.1 (Nat.le_succ _), ?_⟩
          intro k hk
          simp only [List.mem_append, List.mem_singleton] at hk
          cases hk with
          | inl hk => exact lt_trans (hinv.2 k hk) (Nat.lt_succ_self _)
          | inr hk => simp [hk]
        · intro k hk
          simpa using hk
    | sendThrown m msg h =>
        exact ⟨le_refl _, fun hinv => hinv, fun k hk => Or.inl hk⟩
    | msg e =>
        refine ⟨le_of_eq (handleMessage_nextRequestId st e).symm, ?_, ?_⟩
        · intro hinv
          refine ⟨by rw [handleMessage_nextRequestId]; exact hinv.1, ?_⟩
          intro k hk
          rw [handleMessage_nextRequestId]
          cases handleMessage_table st e with
          | inl ht => exact hinv.2 k (by rwa [ht] at hk)
          | inr ht => simp [ht] at hk
        · intro k hk
          cases handleMessage_table st e with
          | inl ht => exact Or.inl (by rwa [ht] at hk)
          | inr ht => simp [ht] at hk
    | conn ui p =>
        rw [connectOp_fst]
        cases handleConnect_next_table st ui p with
        | inl h =>
            refine ⟨le_of_eq h.1.symm, ?_, ?_⟩
            · intro hinv
              refine ⟨by rw [h.1]; exact hinv.1, ?_⟩
              intro k hk
              rw [h.1]
              exact hinv.2 k (by rwa [h.2] at hk)
            · intro k hk
              exact Or.inl (by rwa [h.2] at hk)
        | inr h =>
            refine ⟨by rw [h.1]; exact Nat.le_succ _, ?_, ?_⟩
            · intro hinv
              refine ⟨by rw [h.1]; exact le_trans hinv.1 (Nat.le_succ _), ?_⟩
              intro k hk
              rw [h.1]
              rw [h.2] at hk
              simp only [List.mem_append, List.mem_singleton] at hk
              cases hk with
              | inl hk => exact lt_trans (hinv.2 k hk) (Nat.lt_succ_self _)
              | inr hk => simp [hk]
            · intro k hk
              rw [h.2] at hk
              simpa using hk
    | disc r =>
        cases disconnectOp_next_table st r with
        | inl h =>
            obtain ⟨hn, ht⟩ := h
            refine ⟨le_of_eq hn.symm, ?_, ?_⟩
            · intro hinv
              refine ⟨by rw [hn]; exact hinv.1, ?_⟩
              intro k hk
              rw [hn]
              cases ht with
              | inl h2 => exact hinv.2 k (by rwa [h2] at hk)
              | inr h2 => simp [h2] at hk
            · intro k hk
              cases ht with
              | inl h2 => exact Or.inl (by rwa [h2] at hk)
              | inr h2 => simp [h2] at hk
        | inr h =>
            obtain ⟨hn, ht⟩ := h
            refine ⟨by rw [hn]; exact Nat.le_succ _, ?_, ?_⟩
            · intro hinv
              refine ⟨by rw [hn]; exact le_trans hinv.1 (Nat.le_succ _), ?_⟩
              intro k hk
              rw [hn]
              cases ht with
              | inl h2 =>
                  rw [h2] at hk
                  simp only [List.mem_append, List.mem_singleton] at hk
                  cases hk with
                  | inl hk2 => exact lt_trans (hinv.2 k hk2) (Nat.lt_succ_self _)
                  | inr hk2 => simp [hk2]
              | inr h2 => simp [h2] at hk
            · intro k hk
              cases ht with
              | inl h2 =>
                  rw [h2] at hk
                  simpa using hk
              | inr h2 => simp [h2] at hk

/-- C9 witness: the invariant survives a concrete inbound-message step. -/
theorem requestIdDiscipline_witness :
    idInv (handleMessage cUrlState cDiscMsg).1 :=
  ((requestIdDiscipline.2.2.2 cUrlState (handleMessage cUrlState cDiscMsg).1
      (Step.msg cUrlState cDiscMsg)).2.1)
    (by unfold idInv; exact ⟨by decide, by decide⟩)
